import Mathlib

/-!
Shallow embedding of `src/DroneControl/comm.py` (class `DroneComm`) and
verification of the specification's claims about it.

Modelling conventions:
* Python floats are modelled as rationals (`ℚ`); all widths, periods and
  trims in the claims are exact decimal constants, so the arithmetic of the
  claims is faithfully represented.
* Python 2 `round` (the code targets Python 2: `from __future__ import
  division`) rounds half away from zero; `pyRound` below implements that.
  No claim depends on the tie behaviour.
* Hardware side effects (`self.pwm.set_pwm`, `print`, serial fetch/close)
  are recorded in the `DroneComm` state: `writes` logs every PWM write
  (most recent first, with the width argument that was converted and the
  resulting tick value), `printed` logs every `print` call, and each
  `Link` counts its `getData` fetches and remembers whether `closeSerial`
  was called on it.  Links dropped by rebinding `self.board` are kept in
  `droppedLinks` so that their final state is observable.
-/

namespace DroneControl

/-- Python 2 `round`: round half away from zero, as a map `ℚ → ℤ`.
The code computes `int(round(width))`; `round` returns an integral float
and `int` converts it exactly, so the composition is this function. -/
def pyRound (q : ℚ) : ℤ :=
  if 0 ≤ q then ⌊q + 1/2⌋ else ⌈q - 1/2⌉

/-- `MIN_WIDTH = 0.0011` (seconds). -/
def MIN_WIDTH : ℚ := 11/10000

/-- `MID_WIDTH = 0.0015` (seconds). -/
def MID_WIDTH : ℚ := 15/10000

/-- `MAX_WIDTH = 0.0019` (seconds). -/
def MAX_WIDTH : ℚ := 19/10000

/-- `TICKS = 4096`: pwm time units per cycle. -/
def TICKS : ℕ := 4096

/-- `ROLL_CHANNEL = 3`. -/
def ROLL_CHANNEL : ℕ := 3

/-- `PITCH_CHANNEL = 2`. -/
def PITCH_CHANNEL : ℕ := 2

/-- `YAW_CHANNEL = 1`. -/
def YAW_CHANNEL : ℕ := 1

/-- `DEFAULT_K_PERIOD = 0.023 / 0.022`. -/
def DEFAULT_K_PERIOD : ℚ := (23/1000) / (22/1000)

/-- Attitude telemetry snapshot held by a `MultiWii` board object
(`board.attitude` with keys `angx`, `angy`, `heading`). -/
structure Attitude where
  angx : ℚ
  angy : ℚ
  heading : ℚ
deriving DecidableEq

/-- A `MultiWii` serial link object.  `fetchCount` counts calls to
`getData(MultiWii.ATTITUDE)`; `closed` records `closeSerial()`. -/
structure Link where
  port : String
  closed : Bool
  attitude : Attitude
  fetchCount : ℕ
deriving DecidableEq

/-- One call to `self.pwm.set_pwm(channel, 0, pulse)`, together with the
`width` argument that `set_pwidth` converted into `offTick`. -/
structure PwmWrite where
  channel : ℕ
  width : ℚ
  onTick : ℕ
  offTick : ℤ
deriving DecidableEq

/-- Errors the Python code can raise in the embedded fragment.
`attributeErrorNone` is `AttributeError: 'NoneType' object has no
attribute ...`, raised when a telemetry method dereferences
`self.board` while it is `None` (no flight-control link). -/
inductive PyError where
  | attributeErrorNone
deriving DecidableEq

/-- State of a `DroneComm` instance. -/
structure DroneComm where
  period : ℚ
  roll_pwm_trim : ℚ
  pitch_pwm_trim : ℚ
  yaw_pwm_trim : ℚ
  pwm_freq : ℚ
  board : Option Link
  writes : List PwmWrite
  printed : List String
  droppedLinks : List Link
deriving DecidableEq

/-- The seconds→ticks conversion performed inside `set_pwidth`:
`width = width / self.period * self.TICKS; pulse = int(round(width))`. -/
def toTicks (width period : ℚ) (ticksPerPeriod : ℕ) : ℤ :=
  pyRound (width / period * (ticksPerPeriod : ℚ))

/-- `set_pwidth(self, channel, width)`: converts `width` to ticks and
issues `self.pwm.set_pwm(channel, 0, pulse)` (logged in `writes`). -/
def DroneComm.set_pwidth (s : DroneComm) (channel : ℕ) (width : ℚ) : DroneComm :=
  { s with writes := ⟨channel, width, 0, toTicks width s.period TICKS⟩ :: s.writes }

/-- `reset_channels(self)`: sets channels 0..5 to `MID_WIDTH`, then
re-applies `MID_WIDTH + trim` to the roll/pitch/yaw channels. -/
def DroneComm.reset_channels (s : DroneComm) : DroneComm :=
  let s := (List.range 6).foldl (fun t i => t.set_pwidth i MID_WIDTH) s
  let s := s.set_pwidth ROLL_CHANNEL (MID_WIDTH + s.roll_pwm_trim)
  let s := s.set_pwidth PITCH_CHANNEL (MID_WIDTH + s.pitch_pwm_trim)
  s.set_pwidth YAW_CHANNEL (MID_WIDTH + s.yaw_pwm_trim)

/-- `validate_pwidth(self, width)`: clamp to `[MIN_WIDTH, MAX_WIDTH]`,
returning the (possibly clamped) width and an in-range flag. -/
def validate_pwidth (width : ℚ) : ℚ × Bool :=
  if width > MAX_WIDTH then (MAX_WIDTH, false)
  else if width < MIN_WIDTH then (MIN_WIDTH, false)
  else (width, true)

/-- `set_roll_pwidth(self, width)`: apply roll trim, validate, write the
roll channel, and warn if the trimmed width was out of range. -/
def DroneComm.set_roll_pwidth (s : DroneComm) (width : ℚ) : DroneComm :=
  let width := width + s.roll_pwm_trim
  let p := validate_pwidth width
  let s := s.set_pwidth ROLL_CHANNEL p.1
  if p.2 then s
  else { s with printed := "WARNING: Roll out of range!" :: s.printed }

/-- `set_pitch_pwidth(self, width)`: apply pitch trim, validate, write the
pitch channel, and warn if the trimmed width was out of range. -/
def DroneComm.set_pitch_pwidth (s : DroneComm) (width : ℚ) : DroneComm :=
  let width := width + s.pitch_pwm_trim
  let p := validate_pwidth width
  let s := s.set_pwidth PITCH_CHANNEL p.1
  if p.2 then s
  else { s with printed := "WARNING: Pitch out of range!" :: s.printed }

/-- `set_yaw_pwidth(self, width)`: apply yaw trim, validate, write the
yaw channel, and warn if the trimmed width was out of range. -/
def DroneComm.set_yaw_pwidth (s : DroneComm) (width : ℚ) : DroneComm :=
  let width := width + s.yaw_pwm_trim
  let p := validate_pwidth width
  let s := s.set_pwidth YAW_CHANNEL p.1
  if p.2 then s
  else { s with printed := "WARNING: Yaw out of range!" :: s.printed }

/-- `__init__(self, period, k_period, roll_pwm_trim, pitch_pwm_trim,
yaw_pwm_trim, port)`: stores trims in seconds (`trim * 1E-6`), programs
the pwm frequency `1/(k_period*period)`, opens the `MultiWii` link when
`port` is not `None`, and calls `reset_channels`. -/
def DroneComm.init (period : ℚ) (k_period : Option ℚ)
    (roll_pwm_trim pitch_pwm_trim yaw_pwm_trim : ℚ)
    (port : Option String) : DroneComm :=
  let k := k_period.getD DEFAULT_K_PERIOD
  let s : DroneComm :=
    { period := period
      roll_pwm_trim := roll_pwm_trim * (1/1000000)
      pitch_pwm_trim := pitch_pwm_trim * (1/1000000)
      yaw_pwm_trim := yaw_pwm_trim * (1/1000000)
      pwm_freq := 1 / (k * period)
      board := port.map (fun p => ⟨p, false, ⟨0, 0, 0⟩, 0⟩)
      writes := []
      printed := []
      droppedLinks := [] }
  s.reset_channels

/-- `get_data(self, arg)`: fetches a fresh attitude snapshot from the
board, then returns the requested field, or — for any other argument —
prints a message, closes the serial link, and returns `None`. -/
def DroneComm.get_data (s : DroneComm) (arg : String) :
    Except PyError (DroneComm × Option ℚ) :=
  match s.board with
  | none => .error .attributeErrorNone
  | some b =>
    let b := { b with fetchCount := b.fetchCount + 1 }
    if arg = "angx" then .ok ({ s with board := some b }, some b.attitude.angx)
    else if arg = "angy" then .ok ({ s with board := some b }, some b.attitude.angy)
    else if arg = "heading" then .ok ({ s with board := some b }, some b.attitude.heading)
    else
      let b := { b with closed := true }
      .ok ({ s with board := some b
                    printed := "Invalid argument\n" :: s.printed }, none)

/-- `get_roll(self)`: fresh attitude fetch, then return `attitude["angx"]`. -/
def DroneComm.get_roll (s : DroneComm) : Except PyError (DroneComm × ℚ) :=
  match s.board with
  | none => .error .attributeErrorNone
  | some b =>
    let b := { b with fetchCount := b.fetchCount + 1 }
    .ok ({ s with board := some b }, b.attitude.angx)

/-- `get_pitch(self)`: fresh attitude fetch, then return `attitude["angy"]`. -/
def DroneComm.get_pitch (s : DroneComm) : Except PyError (DroneComm × ℚ) :=
  match s.board with
  | none => .error .attributeErrorNone
  | some b =>
    let b := { b with fetchCount := b.fetchCount + 1 }
    .ok ({ s with board := some b }, b.attitude.angy)

/-- `get_yaw(self)`: fresh attitude fetch, then return `attitude["heading"]`. -/
def DroneComm.get_yaw (s : DroneComm) : Except PyError (DroneComm × ℚ) :=
  match s.board with
  | none => .error .attributeErrorNone
  | some b =>
    let b := { b with fetchCount := b.fetchCount + 1 }
    .ok ({ s with board := some b }, b.attitude.heading)

/-- `exit(self)`: `reset_channels()`, then `self.board =
MultiWii("/dev/ttyUSB0")` (the previous board object, if any, is dropped
without being closed), then `self.board.closeSerial()` on the new board. -/
def DroneComm.exit (s : DroneComm) : DroneComm :=
  let s := s.reset_channels
  let s := { s with
    droppedLinks := (s.board.map (· :: s.droppedLinks)).getD s.droppedLinks
    board := some ⟨"/dev/ttyUSB0", false, ⟨0, 0, 0⟩, 0⟩ }
  { s with board := s.board.map (fun b => { b with closed := true }) }

/-- The width argument of the most recent PWM write on `channel`, if any
(`writes` is most-recent-first). -/
def lastWidth (s : DroneComm) (channel : ℕ) : Option ℚ :=
  (s.writes.find? (fun e => e.channel = channel)).map (fun e => e.width)

/-! ### Helper lemmas -/

/-- `pyRound` is monotone. -/
theorem pyRound_mono {x y : ℚ} (h : x ≤ y) : pyRound x ≤ pyRound y := by
  unfold pyRound
  by_cases hx : 0 ≤ x
  · have hy : 0 ≤ y := le_trans hx h
    simp only [hx, hy, if_true]
    exact Int.floor_le_floor (by linarith)
  · by_cases hy : 0 ≤ y
    · simp only [hx, hy, if_true, if_false]
      push_neg at hx
      have h1 : (⌈x - 1/2⌉ : ℤ) ≤ 0 := by
        apply Int.ceil_le.mpr
        push_cast
        linarith
      have h2 : (0 : ℤ) ≤ ⌊y + 1/2⌋ := by
        apply Int.le_floor.mpr
        push_cast
        linarith
      omega
    · simp only [hx, hy, if_false]
      exact Int.ceil_le_ceil (by linarith)

/-- The width component returned by `validate_pwidth` always lies in
`[MIN_WIDTH, MAX_WIDTH]`. -/
theorem validate_pwidth_mem (w : ℚ) :
    MIN_WIDTH ≤ (validate_pwidth w).1 ∧ (validate_pwidth w).1 ≤ MAX_WIDTH := by
  unfold validate_pwidth
  have hminmax : MIN_WIDTH ≤ MAX_WIDTH := by norm_num [MIN_WIDTH, MAX_WIDTH]
  split
  · exact ⟨hminmax, le_refl _⟩
  · split
    · exact ⟨le_refl _, hminmax⟩
    · constructor <;> [linarith; linarith]

/-! ### Claims -/

/-- C4: `validate_pwidth` is the identity with an in-range flag on
`[MIN_WIDTH, MAX_WIDTH]`: widths in range pass through flagged `true`,
widths above `MAX_WIDTH` return `(MAX_WIDTH, false)`, and widths below
`MIN_WIDTH` return `(MIN_WIDTH, false)`. -/
theorem C4_validate_pwidth_clamps (w : ℚ) :
    (MIN_WIDTH ≤ w → w ≤ MAX_WIDTH → validate_pwidth w = (w, true))
    ∧ (w > MAX_WIDTH → validate_pwidth w = (MAX_WIDTH, false))
    ∧ (w < MIN_WIDTH → validate_pwidth w = (MIN_WIDTH, false)) := by
  unfold validate_pwidth
  refine ⟨fun h1 h2 => ?_, fun h => ?_, fun h => ?_⟩
  · rw [if_neg (by linarith), if_neg (by linarith)]
  · rw [if_pos h]
  · have : ¬ w > MAX_WIDTH := by norm_num [MAX_WIDTH, MIN_WIDTH] at h ⊢; linarith
    rw [if_neg this, if_pos h]

/-- Witness for C4 at the concrete inputs `0.0015`, `0.01`, `0`. -/
theorem C4_validate_pwidth_clamps_witness :
    validate_pwidth (15/10000) = (15/10000, true)
    ∧ validate_pwidth (1/100) = (MAX_WIDTH, false)
    ∧ validate_pwidth 0 = (MIN_WIDTH, false) :=
  ⟨(C4_validate_pwidth_clamps (15/10000)).1 (by norm_num [MIN_WIDTH])
      (by norm_num [MAX_WIDTH]),
   (C4_validate_pwidth_clamps (1/100)).2.1 (by norm_num [MAX_WIDTH]),
   (C4_validate_pwidth_clamps 0).2.2 (by norm_num [MIN_WIDTH])⟩

/-- C5: the seconds→ticks conversion inside `set_pwidth` computes
`round(width / period * TICKS)` with no clamping — every call to
`set_pwidth` records exactly that tick value for the width it was given —
and at `width = 0.0015`, `period = 0.022`, `ticksPerPeriod = 4096` it
yields the integer 279. -/
theorem C5_toTicks_formula :
    (∀ (s : DroneComm) (c : ℕ) (w : ℚ),
        (s.set_pwidth c w).writes =
          ⟨c, w, 0, pyRound (w / s.period * (TICKS : ℚ))⟩ :: s.writes)
    ∧ toTicks (15/10000) (22/1000) 4096 = 279 := by
  constructor
  · intro s c w
    rfl
  · norm_num [toTicks, pyRound]

/-- C6: for fixed `period > 0` and fixed `ticksPerPeriod`, `toTicks` is
monotone non-decreasing in the width. -/
theorem C6_toTicks_monotone (p : ℚ) (t : ℕ) (w1 w2 : ℚ)
    (hp : 0 < p) (h : w1 ≤ w2) : toTicks w1 p t ≤ toTicks w2 p t := by
  unfold toTicks
  apply pyRound_mono
  gcongr

/-- Witness for C6 at `period = 0.022`, `ticksPerPeriod = 4096`,
`w1 = 0.0011`, `w2 = 0.0019`. -/
theorem C6_toTicks_monotone_witness :
    toTicks (11/10000) (22/1000) 4096 ≤ toTicks (19/10000) (22/1000) 4096 :=
  C6_toTicks_monotone (22/1000) 4096 (11/10000) (19/10000)
    (by norm_num) (by norm_num)

/-- Writes performed by `set_roll_pwidth`: exactly one new PWM write, on
the roll channel, carrying the validated width. -/
theorem set_roll_pwidth_writes (s : DroneComm) (w : ℚ) :
    (s.set_roll_pwidth w).writes =
      ⟨ROLL_CHANNEL, (validate_pwidth (w + s.roll_pwm_trim)).1, 0,
        toTicks (validate_pwidth (w + s.roll_pwm_trim)).1 s.period TICKS⟩ :: s.writes := by
  simp only [DroneComm.set_roll_pwidth, DroneComm.set_pwidth]
  split <;> rfl

/-- Writes performed by `set_pitch_pwidth`: exactly one new PWM write, on
the pitch channel, carrying the validated width. -/
theorem set_pitch_pwidth_writes (s : DroneComm) (w : ℚ) :
    (s.set_pitch_pwidth w).writes =
      ⟨PITCH_CHANNEL, (validate_pwidth (w + s.pitch_pwm_trim)).1, 0,
        toTicks (validate_pwidth (w + s.pitch_pwm_trim)).1 s.period TICKS⟩ :: s.writes := by
  simp only [DroneComm.set_pitch_pwidth, DroneComm.set_pwidth]
  split <;> rfl

/-- Writes performed by `set_yaw_pwidth`: exactly one new PWM write, on
the yaw channel, carrying the validated width. -/
theorem set_yaw_pwidth_writes (s : DroneComm) (w : ℚ) :
    (s.set_yaw_pwidth w).writes =
      ⟨YAW_CHANNEL, (validate_pwidth (w + s.yaw_pwm_trim)).1, 0,
        toTicks (validate_pwidth (w + s.yaw_pwm_trim)).1 s.period TICKS⟩ :: s.writes := by
  simp only [DroneComm.set_yaw_pwidth, DroneComm.set_pwidth]
  split <;> rfl

/-- C1 (amended): every pulse width written by the per-axis setters
`set_roll_pwidth` / `set_pitch_pwidth` / `set_yaw_pwidth` is clamped into
`[MIN_WIDTH, MAX_WIDTH]` before the hardware write. (The original claim,
over all Gateway operations and all trims, is refuted by
`C1_counterexample`: `reset_channels` — also run by the constructor —
applies `MID_WIDTH + trim` with no validation, and `set_pwidth` never
clamps.) -/
theorem C1_axis_setters_clamp (s : DroneComm) (w : ℚ) :
    (∃ e, (s.set_roll_pwidth w).writes = e :: s.writes ∧ e.channel = ROLL_CHANNEL ∧
      MIN_WIDTH ≤ e.width ∧ e.width ≤ MAX_WIDTH) ∧
    (∃ e, (s.set_pitch_pwidth w).writes = e :: s.writes ∧ e.channel = PITCH_CHANNEL ∧
      MIN_WIDTH ≤ e.width ∧ e.width ≤ MAX_WIDTH) ∧
    (∃ e, (s.set_yaw_pwidth w).writes = e :: s.writes ∧ e.channel = YAW_CHANNEL ∧
      MIN_WIDTH ≤ e.width ∧ e.width ≤ MAX_WIDTH) :=
  ⟨⟨_, set_roll_pwidth_writes s w, rfl,
      (validate_pwidth_mem _).1, (validate_pwidth_mem _).2⟩,
   ⟨_, set_pitch_pwidth_writes s w, rfl,
      (validate_pwidth_mem _).1, (validate_pwidth_mem _).2⟩,
   ⟨_, set_yaw_pwidth_writes s w, rfl,
      (validate_pwidth_mem _).1, (validate_pwidth_mem _).2⟩⟩

/-- C1 counterexample: constructing a `DroneComm` with a roll trim of
1000 µs makes the constructor's `reset_channels` pass the raw width
`MID_WIDTH + 0.001 = 0.0025 > MAX_WIDTH` to the hardware write on the
roll channel (tick value 465), with no clamping. -/
theorem C1_counterexample :
    (DroneComm.init (11/500) none 1000 0 0 (some "/dev/ttyUSB0")).writes.get? 2 =
      some ⟨ROLL_CHANNEL, 1/400, 0, 465⟩ ∧ MAX_WIDTH < 1/400 := by
  constructor
  · norm_num [DroneComm.init, DroneComm.reset_channels, DroneComm.set_pwidth,
      MID_WIDTH, ROLL_CHANNEL, PITCH_CHANNEL, YAW_CHANNEL, TICKS, toTicks, pyRound,
      List.range_succ]
  · norm_num [MAX_WIDTH]

/-- C7: when the requested width plus the roll trim exceeds `MAX_WIDTH`,
`set_roll_pwidth` still performs the hardware write, programming the roll
channel at `MAX_WIDTH` (converted to ticks), and emits the non-fatal
warning naming the Roll axis. -/
theorem C7_roll_overflow_clamps_and_warns (s : DroneComm) (w : ℚ)
    (h : MAX_WIDTH < w + s.roll_pwm_trim) :
    (s.set_roll_pwidth w).writes =
      ⟨ROLL_CHANNEL, MAX_WIDTH, 0, toTicks MAX_WIDTH s.period TICKS⟩ :: s.writes ∧
    (s.set_roll_pwidth w).printed = "WARNING: Roll out of range!" :: s.printed := by
  have hv : validate_pwidth (w + s.roll_pwm_trim) = (MAX_WIDTH, false) := by
    unfold validate_pwidth
    rw [if_pos h]
  constructor
  · rw [set_roll_pwidth_writes, hv]
  · simp [DroneComm.set_roll_pwidth, DroneComm.set_pwidth, hv]

/-- Witness for C7: requesting `0.01` s on a gateway with zero roll trim
clips to `MAX_WIDTH` and warns. -/
theorem C7_roll_overflow_clamps_and_warns_witness :
    ((DroneComm.init (11/500) none 0 0 0 none).set_roll_pwidth (1/100)).writes =
      ⟨ROLL_CHANNEL, MAX_WIDTH, 0,
        toTicks MAX_WIDTH (DroneComm.init (11/500) none 0 0 0 none).period TICKS⟩ ::
        (DroneComm.init (11/500) none 0 0 0 none).writes ∧
    ((DroneComm.init (11/500) none 0 0 0 none).set_roll_pwidth (1/100)).printed =
      "WARNING: Roll out of range!" :: (DroneComm.init (11/500) none 0 0 0 none).printed :=
  C7_roll_overflow_clamps_and_warns _ (1/100)
    (by norm_num [DroneComm.init, DroneComm.reset_channels, DroneComm.set_pwidth,
      MAX_WIDTH, List.range_succ])


/-- `exit` preserves the calibration configuration: the pwm period and
the per-axis trims are unchanged. -/
theorem exit_preserves_config (s : DroneComm) :
    s.exit.period = s.period ∧ s.exit.pitch_pwm_trim = s.pitch_pwm_trim := by
  have hr : List.range 6 = [0, 1, 2, 3, 4, 5] := rfl
  simp [DroneComm.exit, DroneComm.reset_channels, DroneComm.set_pwidth, hr]

/-- C2 (amended): the code has no lifecycle state machine and no
InvalidState error; after `exit`, `set_pitch_pwidth` still executes
normally, applying trim and clamping and performing its hardware write
on the pitch channel. (The original claim is refuted by
`C2_counterexample`.) -/
theorem C2_setPitch_after_exit_still_writes (s : DroneComm) (w : ℚ) :
    (s.exit.set_pitch_pwidth w).writes =
      ⟨PITCH_CHANNEL, (validate_pwidth (w + s.pitch_pwm_trim)).1, 0,
        toTicks (validate_pwidth (w + s.pitch_pwm_trim)).1 s.period TICKS⟩ ::
        s.exit.writes := by
  rw [set_pitch_pwidth_writes, (exit_preserves_config s).1, (exit_preserves_config s).2]

/-- C2 counterexample: on a default gateway, calling `set_pitch_pwidth`
after `exit` raises no error and performs a hardware write on the pitch
channel (width `0.0015`, tick value 279). -/
theorem C2_counterexample :
    ((DroneComm.init (11/500) none 0 0 0 (some "/dev/ttyUSB0")).exit.set_pitch_pwidth
        (3/2000)).writes =
      ⟨PITCH_CHANNEL, 3/2000, 0, 279⟩ ::
        (DroneComm.init (11/500) none 0 0 0 (some "/dev/ttyUSB0")).exit.writes := by
  rw [set_pitch_pwidth_writes]
  norm_num [DroneComm.init, DroneComm.exit, DroneComm.reset_channels, DroneComm.set_pwidth,
    validate_pwidth, MIN_WIDTH, MAX_WIDTH, MID_WIDTH, toTicks, pyRound, TICKS,
    List.range_succ]

/-- C3: after `reset_channels`, for every trim configuration, the width
last programmed on the roll/pitch/yaw channels is `MID_WIDTH + trim` for
that axis, and on every other channel in 0..5 it is exactly `MID_WIDTH`. -/
theorem C3_reset_programs_trimmed_mids (s : DroneComm) (c : ℕ) (hc : c < 6)
    (h1 : c ≠ ROLL_CHANNEL) (h2 : c ≠ PITCH_CHANNEL) (h3 : c ≠ YAW_CHANNEL) :
    lastWidth s.reset_channels ROLL_CHANNEL = some (MID_WIDTH + s.roll_pwm_trim) ∧
    lastWidth s.reset_channels PITCH_CHANNEL = some (MID_WIDTH + s.pitch_pwm_trim) ∧
    lastWidth s.reset_channels YAW_CHANNEL = some (MID_WIDTH + s.yaw_pwm_trim) ∧
    lastWidth s.reset_channels c = some MID_WIDTH := by
  have hr : List.range 6 = [0, 1, 2, 3, 4, 5] := rfl
  simp only [ROLL_CHANNEL, PITCH_CHANNEL, YAW_CHANNEL] at h1 h2 h3
  refine ⟨?_, ?_, ?_, ?_⟩
  · simp [lastWidth, DroneComm.reset_channels, DroneComm.set_pwidth, hr,
      ROLL_CHANNEL, PITCH_CHANNEL, YAW_CHANNEL, List.find?]
  · simp [lastWidth, DroneComm.reset_channels, DroneComm.set_pwidth, hr,
      ROLL_CHANNEL, PITCH_CHANNEL, YAW_CHANNEL, List.find?]
  · simp [lastWidth, DroneComm.reset_channels, DroneComm.set_pwidth, hr,
      ROLL_CHANNEL, PITCH_CHANNEL, YAW_CHANNEL, List.find?]
  · interval_cases c
    · simp [lastWidth, DroneComm.reset_channels, DroneComm.set_pwidth, hr,
        ROLL_CHANNEL, PITCH_CHANNEL, YAW_CHANNEL, List.find?]
    · exact absurd rfl h3
    · exact absurd rfl h2
    · exact absurd rfl h1
    · simp [lastWidth, DroneComm.reset_channels, DroneComm.set_pwidth, hr,
        ROLL_CHANNEL, PITCH_CHANNEL, YAW_CHANNEL, List.find?]
    · simp [lastWidth, DroneComm.reset_channels, DroneComm.set_pwidth, hr,
        ROLL_CHANNEL, PITCH_CHANNEL, YAW_CHANNEL, List.find?]

/-- Witness for C3 on a gateway with trims 1 µs, 2 µs, 3 µs, checking
channel 0 as the non-axis channel. -/
theorem C3_reset_programs_trimmed_mids_witness :
    lastWidth (DroneComm.init (11/500) none 1 2 3 none).reset_channels ROLL_CHANNEL =
      some (MID_WIDTH + (DroneComm.init (11/500) none 1 2 3 none).roll_pwm_trim) ∧
    lastWidth (DroneComm.init (11/500) none 1 2 3 none).reset_channels PITCH_CHANNEL =
      some (MID_WIDTH + (DroneComm.init (11/500) none 1 2 3 none).pitch_pwm_trim) ∧
    lastWidth (DroneComm.init (11/500) none 1 2 3 none).reset_channels YAW_CHANNEL =
      some (MID_WIDTH + (DroneComm.init (11/500) none 1 2 3 none).yaw_pwm_trim) ∧
    lastWidth (DroneComm.init (11/500) none 1 2 3 none).reset_channels 0 =
      some MID_WIDTH :=
  C3_reset_programs_trimmed_mids _ 0 (by decide) (by decide) (by decide) (by decide)

/-- C8 at the failing input: a gateway built on port `/dev/ttyACM0`,
after `exit`, has dropped its own link without closing it
(`closed = false` in `droppedLinks`), while a brand-new link on
`/dev/ttyUSB0` was opened and is the one that got closed. -/
theorem C8_exit_closes_fresh_link :
    (DroneComm.init (11/500) none 0 0 0 (some "/dev/ttyACM0")).exit.droppedLinks =
      [⟨"/dev/ttyACM0", false, ⟨0, 0, 0⟩, 0⟩] ∧
    (DroneComm.init (11/500) none 0 0 0 (some "/dev/ttyACM0")).exit.board =
      some ⟨"/dev/ttyUSB0", true, ⟨0, 0, 0⟩, 0⟩ := by
  constructor <;> rfl

/-- C9: when the gateway was constructed without a flight-control link
(`port = None`, so `board = None`), every telemetry accessor — `get_roll`
in particular, and also `get_pitch`, `get_yaw` and `get_data` — fails
with the None-dereference error instead of returning a value. -/
theorem C9_no_link_telemetry_errors (s : DroneComm) (arg : String)
    (h : s.board = none) :
    s.get_roll = .error .attributeErrorNone ∧
    s.get_pitch = .error .attributeErrorNone ∧
    s.get_yaw = .error .attributeErrorNone ∧
    s.get_data arg = .error .attributeErrorNone := by
  simp [DroneComm.get_roll, DroneComm.get_pitch, DroneComm.get_yaw, DroneComm.get_data, h]

/-- Witness for C9 on a gateway constructed with `port = None`. -/
theorem C9_no_link_telemetry_errors_witness :
    (DroneComm.init (11/500) none 0 0 0 none).get_roll = .error .attributeErrorNone ∧
    (DroneComm.init (11/500) none 0 0 0 none).get_pitch = .error .attributeErrorNone ∧
    (DroneComm.init (11/500) none 0 0 0 none).get_yaw = .error .attributeErrorNone ∧
    (DroneComm.init (11/500) none 0 0 0 none).get_data "angx" =
      .error .attributeErrorNone :=
  C9_no_link_telemetry_errors _ "angx" rfl

/-- C10: for any argument outside angx/angy/heading, `get_data` raises no
error: it still performs the attitude fetch first (`fetchCount`
increments), then closes the serial link (`closed := true`, so subsequent
telemetry calls on this instance operate on a closed link) and returns
`None`. -/
theorem C10_get_data_invalid_arg (s : DroneComm) (b : Link) (arg : String)
    (hb : s.board = some b)
    (h1 : arg ≠ "angx") (h2 : arg ≠ "angy") (h3 : arg ≠ "heading") :
    s.get_data arg =
      .ok ({ s with
              board := some { b with fetchCount := b.fetchCount + 1, closed := true },
              printed := "Invalid argument\n" :: s.printed }, none) := by
  simp [DroneComm.get_data, hb, h1, h2, h3]

/-- Witness for C10: `get_data "foo"` on a default-port gateway fetches,
closes the link and returns `None`. -/
theorem C10_get_data_invalid_arg_witness :
    (DroneComm.init (11/500) none 0 0 0 (some "/dev/ttyUSB0")).get_data "foo" =
      .ok ({ DroneComm.init (11/500) none 0 0 0 (some "/dev/ttyUSB0") with
              board := some ⟨"/dev/ttyUSB0", true, ⟨0, 0, 0⟩, 1⟩,
              printed := "Invalid argument\n" ::
                (DroneComm.init (11/500) none 0 0 0 (some "/dev/ttyUSB0")).printed },
            none) :=
  C10_get_data_invalid_arg _ ⟨"/dev/ttyUSB0", false, ⟨0, 0, 0⟩, 0⟩ "foo" rfl
    (by decide) (by decide) (by decide)

end DroneControl
